import Mathlib

/-!
Shallow embedding of the credit-debit-generate-refund core of `src/src/App.js`
(a browser client for an AI headshot generator), together with the profile and
gallery subscription callbacks, the file-selection handler, and the sign-in
error handlers.  Files, base64 payloads and data URIs are modelled as `String`;
JS numbers holding credit balances are modelled as `Int`.
-/

/-- A Firestore profile document, `{userId, email, credits}` as created and
read by `App.js` (lines 172-183). -/
structure ProfileDoc where
  userId : String
  email : String
  credits : Int

/-- A generation record as written by `addDoc(collection(db, 'generations'), ...)`
(lines 381-385).  The wall-clock `createdAt` field carries no information the
claims mention and is omitted. -/
structure GenRecord where
  userId : String
  images : List String

/-- Outcome of one inference call in the loop of `handleGenerate`
(lines 336-375):
* `transportError m`: the `fetch` promise itself rejects with message `m`;
* `httpError m`: the response is non-ok, so the code throws
  an error whose message is `"API Error: " ++ m` (lines 364-367);
* `ok img`: the response is ok and `img` is the extracted
  `inlineData.data` payload, if any (line 370). -/
inductive InferResult where
  | transportError (msg : String)
  | httpError (msg : String)
  | ok (image : Option String)

/-- What the sequential inference loop of `handleGenerate` (lines 336-375)
produces: the `generated` array at the moment the loop ends or throws, the
number of `fetch` calls made, and the message of the thrown error, if any. -/
structure CallsOut where
  generated : List String
  calls : Nat
  thrown : Option String

/-- The sequential loop of `handleGenerate` (lines 336-375): one `fetch` per
image; a throw aborts the loop; an ok response contributes
`data:image/png;base64,<data>` to `generated` when it has an image payload
(lines 372-374). -/
def runCalls : List InferResult → CallsOut
  | [] => { generated := [], calls := 0, thrown := none }
  | InferResult.transportError m :: _ => { generated := [], calls := 1, thrown := some m }
  | InferResult.httpError m :: _ =>
      { generated := [], calls := 1, thrown := some ("API Error: " ++ m) }
  | InferResult.ok none :: rs =>
      let out := runCalls rs
      { generated := out.generated, calls := out.calls + 1, thrown := out.thrown }
  | InferResult.ok (some d) :: rs =>
      let out := runCalls rs
      { generated := ("data:image/png;base64," ++ d) :: out.generated,
        calls := out.calls + 1, thrown := out.thrown }

/-- `profile?.credits < 50` (line 318).  When `profile` is null the optional
chain yields `undefined`, and `undefined < 50` is `false` in JS. -/
def creditsUnder50 : Option ProfileDoc → Bool
  | some p => decide (p.credits < 50)
  | none => false

/-- `profile?.credits || 0` (line 392), the value the catch block writes back.
For an integer balance `c`, `c || 0` is `0` when `c = 0` (falsy) and `c`
otherwise — in both cases equal to `c`; for a null profile it is `0`. -/
def refundValue : Option ProfileDoc → Int
  | some p => if p.credits = 0 then 0 else p.credits
  | none => 0

/-- Message of the `TypeError` raised by `profile.credits` on a null `profile`
at the debit step (line 329); quotes of the engine text are omitted. -/
def nullCreditsMsg : String := "Cannot read properties of null (reading credits)"

/-- Observable outcome of one `handleGenerate` run: the error message shown
(`setError`), the upload batch afterwards (`uploadedFiles`), the sequence of
values written to the profile document's `credits` field (`updateDoc`, lines
329 and 392, in order), the generation records appended (`addDoc`, line 381),
and the number of inference `fetch` calls made. -/
structure GenResult where
  error : String
  uploadedFiles : List String
  creditWrites : List Int
  records : List GenRecord
  inferenceCalls : Nat

/-- `handleGenerate` (lines 313-396).  `uid` is `user.uid`; `uploadedFiles`
the upload batch; `profile` the locally cached profile (null before the first
snapshot); `responses` the inference endpoint's reply to each successive call.
Store writes themselves are assumed to succeed and `toBase64` encoding is
assumed not to reject, as the claims only exercise inference-side failures. -/
def handleGenerate (uid : String) (uploadedFiles : List String)
    (profile : Option ProfileDoc) (responses : List InferResult) : GenResult :=
  if uploadedFiles.length = 0 then
    { error := "Please upload at least one selfie."
      uploadedFiles := uploadedFiles, creditWrites := [], records := [], inferenceCalls := 0 }
  else if creditsUnder50 profile then
    { error := "You need at least 50 credits to generate headshots."
      uploadedFiles := uploadedFiles, creditWrites := [], records := [], inferenceCalls := 0 }
  else
    match profile with
    | none =>
      -- `updateDoc(profileRef, { credits: profile.credits - 50 })` dereferences
      -- null before any write: the debit never happens, the catch block runs
      -- and writes `profile?.credits || 0`, i.e. 0.
      { error := "Generation failed: " ++ nullCreditsMsg ++ ". Refunding credits."
        uploadedFiles := uploadedFiles
        creditWrites := [refundValue none], records := [], inferenceCalls := 0 }
    | some p =>
      let out := runCalls (responses.take uploadedFiles.length)
      match out.thrown with
      | some m =>
        { error := "Generation failed: " ++ m ++ ". Refunding credits."
          uploadedFiles := uploadedFiles
          creditWrites := [p.credits - 50, refundValue (some p)]
          records := [], inferenceCalls := out.calls }
      | none =>
        if out.generated.length = 0 then
          -- line 378 throws; the catch prepends/appends its own wording.
          { error := "Generation failed: The AI failed to generate images. Your credits have been refunded.. Refunding credits."
            uploadedFiles := uploadedFiles
            creditWrites := [p.credits - 50, refundValue (some p)]
            records := [], inferenceCalls := out.calls }
        else
          { error := ""
            uploadedFiles := []
            creditWrites := [p.credits - 50]
            records := [{ userId := uid, images := out.generated }]
            inferenceCalls := out.calls }

/-- First-occurrence deduplication, the semantics of `[...new Set(images)]`
(line 192): a JS `Set` keeps insertion order and ignores re-insertions. -/
def dedupFirst : List String → List String
  | [] => []
  | x :: xs => x :: (dedupFirst xs).filter (fun y => decide (y ≠ x))

/-- The generations `onSnapshot` callback (lines 187-194): flatten the
`images` arrays of all delivered records in delivery order, deduplicate via a
`Set`, and reverse. -/
def galleryView (records : List (List String)) : List String :=
  (dedupFirst records.flatten).reverse

/-- The claim's reading of the gallery, for comparison: the flattened image
references of all records, deduplicated by value, ordered newest-record-first
(delivery order being oldest-first, newest-record-first is the reverse of the
record list, flattened with each record's own image order preserved). -/
def galleryViewSpec (records : List (List String)) : List String :=
  dedupFirst records.reverse.flatten

/-- Action taken by the profile `onSnapshot` callback (lines 172-183). -/
inductive SnapAction where
  | setLocal (p : ProfileDoc)
  | createDoc (p : ProfileDoc)

/-- The profile `onSnapshot` callback (lines 172-183): an existing document is
stored locally; a missing one is created with `{userId, email, credits: 0}`. -/
def onProfileSnapshot (uid email : String) (docData : Option ProfileDoc) : SnapAction :=
  match docData with
  | some p => SnapAction.setLocal p
  | none => SnapAction.createDoc { userId := uid, email := email, credits := 0 }

/-- The slice of component state `handleFileChange` touches. -/
structure UploadState where
  uploadedFiles : List String
  error : String

/-- `handleFileChange` (lines 297-304): more than 5 selected files sets an
error and returns early; otherwise the selection replaces the batch and the
error is cleared. -/
def handleFileChange (files : List String) (s : UploadState) : UploadState :=
  if files.length > 5 then
    { s with error := "You can upload a maximum of 5 images." }
  else
    { uploadedFiles := files, error := "" }

/-- The error code the redirect-flow catch suppresses (line 151). -/
def redirectCancelledCode : String := "auth/redirect-cancelled-by-user"

/-- The `getRedirectResult` catch handler (lines 141-156): the message set by
`setError`, or `none` when the error is suppressed. -/
def redirectCatchSetsError (code msg : String) : Option String :=
  if code = redirectCancelledCode then none
  else some ("Failed to complete sign-in: " ++ msg ++ ". Please try again.")

/-- The `signInWithPopup` catch handler (lines 254-257): it sets a fixed
message unconditionally, never inspecting the error's code. -/
def popupCatchSetsError (_code _msg : String) : Option String :=
  some "Could not complete sign-in. Please check browser settings for pop-ups."

/-! ## Supporting lemmas -/

/-- The loop on all-successful responses collects every image in order. -/
theorem runCalls_all_images (ds : List String) :
    runCalls (ds.map (fun d => InferResult.ok (some d))) =
      { generated := ds.map (fun d => "data:image/png;base64," ++ d),
        calls := ds.length, thrown := none } := by
  induction ds with
  | nil => rfl
  | cons d ds ih => simp [runCalls, ih]

/-- The loop on responses that all complete without an image payload collects
nothing and throws nothing. -/
theorem runCalls_all_empty (rs : List InferResult)
    (hall : ∀ r ∈ rs, r = InferResult.ok none) :
    runCalls rs = { generated := [], calls := rs.length, thrown := none } := by
  induction rs with
  | nil => rfl
  | cons r rs ih =>
    have hr := hall r (by simp)
    subst hr
    simp [runCalls, ih (fun r hmem => hall r (by simp [hmem]))]

/-- Message of the error a single response makes the loop throw, if any. -/
def errText : InferResult → Option String
  | InferResult.transportError m => some m
  | InferResult.httpError m => some ("API Error: " ++ m)
  | InferResult.ok _ => none

/-- The loop stops at the first throwing response: it makes one call for each
earlier response plus the failing one, and propagates that error's message. -/
theorem runCalls_first_error (pre : List InferResult) (e : InferResult)
    (post : List InferResult) (m : String)
    (hpre : ∀ r ∈ pre, errText r = none) (he : errText e = some m) :
    (runCalls (pre ++ e :: post)).calls = pre.length + 1 ∧
      (runCalls (pre ++ e :: post)).thrown = some m := by
  induction pre with
  | nil =>
    cases e with
    | transportError m' => simp [errText] at he; simp [runCalls, he]
    | httpError m' => simp [errText] at he; simp [runCalls, ← he]
    | ok img => simp [errText] at he
  | cons r pre ih =>
    have hr := hpre r (by simp)
    have ih' := ih (fun r hmem => hpre r (by simp [hmem]))
    cases r with
    | transportError m' => simp [errText] at hr
    | httpError m' => simp [errText] at hr
    | ok img =>
      cases img with
      | none =>
        simp only [List.cons_append, runCalls]
        exact ⟨by simp [ih'.1, Nat.add_comm], by simp [ih'.2]⟩
      | some d =>
        simp only [List.cons_append, runCalls]
        exact ⟨by simp [ih'.1, Nat.add_comm], by simp [ih'.2]⟩

/-- The refund write `profile?.credits || 0` restores exactly the cached
pre-debit balance whenever a profile is present. -/
theorem refundValue_some (p : ProfileDoc) : refundValue (some p) = p.credits := by
  simp only [refundValue]
  split <;> omega

/-- Appending one element to a list deduplicates (keeping last occurrences) to
the deduplication of the prefix with that element filtered out, then the
element. -/
theorem dedup_append_singleton (l : List String) (x : String) :
    (l ++ [x]).dedup = (l.dedup.filter (fun y => decide (y ≠ x))) ++ [x] := by
  induction l with
  | nil => simp
  | cons a l ih =>
    by_cases hx : a = x
    · subst hx
      rw [List.cons_append, List.dedup_cons_of_mem (by simp), ih]
      by_cases hal : a ∈ l
      · rw [List.dedup_cons_of_mem hal]
      · rw [List.dedup_cons_of_not_mem hal]
        simp [List.filter_cons]
    · by_cases hal : a ∈ l
      · rw [List.cons_append, List.dedup_cons_of_mem (by simp [hal]), ih,
          List.dedup_cons_of_mem hal]
      · have hax : a ∉ l ++ [x] := by simp [hal, hx]
        rw [List.cons_append, List.dedup_cons_of_not_mem hax, ih,
          List.dedup_cons_of_not_mem hal]
        simp [List.filter_cons, hx]

/-- Reversing a first-occurrence deduplication is the same as deduplicating
the reversed list keeping last occurrences (`List.dedup`). -/
theorem dedupFirst_reverse (xs : List String) :
    (dedupFirst xs).reverse = xs.reverse.dedup := by
  induction xs with
  | nil => rfl
  | cons x xs ih =>
    simp only [dedupFirst, List.reverse_cons]
    rw [dedup_append_singleton, ← ih, List.filter_reverse]

deriving instance DecidableEq for InferResult

/-! ## Claims -/

/-- C1: for every profile with fewer than 50 credits and every non-empty
upload batch, `handleGenerate` rejects with the insufficient-credits error and
performs no side effect: no credit write, no inference call, no generation
record, and the batch is left as it was. -/
theorem C1_insufficient_credits_rejects (uid : String) (files : List String)
    (p : ProfileDoc) (responses : List InferResult)
    (hne : files ≠ []) (hlt : p.credits < 50) :
    handleGenerate uid files (some p) responses =
      { error := "You need at least 50 credits to generate headshots."
        uploadedFiles := files, creditWrites := [], records := [], inferenceCalls := 0 } := by
  have h0 : ¬ files.length = 0 := by simpa [List.length_eq_zero] using hne
  simp [handleGenerate, creditsUnder50, h0, hlt]

/-- Witness for C1 at a concrete input. -/
theorem C1_witness :
    handleGenerate "u" ["f"] (some { userId := "u", email := "e", credits := 0 }) [] =
      { error := "You need at least 50 credits to generate headshots."
        uploadedFiles := ["f"], creditWrites := [], records := [], inferenceCalls := 0 } :=
  C1_insufficient_credits_rejects "u" ["f"] { userId := "u", email := "e", credits := 0 } []
    (by decide) (by decide)

/-- C2: for every empty upload batch, `handleGenerate` rejects with the
no-images error and performs no side effect, whatever the profile and
whatever the endpoint would have answered. -/
theorem C2_empty_batch_rejects (uid : String) (profile : Option ProfileDoc)
    (responses : List InferResult) :
    handleGenerate uid [] profile responses =
      { error := "Please upload at least one selfie."
        uploadedFiles := [], creditWrites := [], records := [], inferenceCalls := 0 } := by
  simp [handleGenerate]

/-- C3: with at least 50 credits, a non-empty batch of N files, and every one
of the N inference calls yielding an image, exactly one generation record is
created holding the N images in call order, the batch is cleared, and the only
credit write is the pre-debit balance minus 50. -/
theorem C3_all_success_creates_one_record (uid : String) (files ds : List String)
    (p : ProfileDoc) (hne : files ≠ []) (hge : 50 ≤ p.credits)
    (hlen : ds.length = files.length) :
    handleGenerate uid files (some p) (ds.map (fun d => InferResult.ok (some d))) =
      { error := ""
        uploadedFiles := []
        creditWrites := [p.credits - 50]
        records := [{ userId := uid,
                      images := ds.map (fun d => "data:image/png;base64," ++ d) }]
        inferenceCalls := files.length } := by
  have h0 : ¬ files.length = 0 := by simpa [List.length_eq_zero] using hne
  have hnot : ¬ p.credits < 50 := not_lt.mpr hge
  have htake : (ds.map (fun d => InferResult.ok (some d))).take files.length
      = ds.map (fun d => InferResult.ok (some d)) := by
    rw [← hlen, ← List.length_map ds (fun d => InferResult.ok (some d)), List.take_length]
  have hg : ¬ (ds.map (fun d => "data:image/png;base64," ++ d)).length = 0 := by
    simpa [hlen] using h0
  simp [handleGenerate, creditsUnder50, h0, hnot, htake, runCalls_all_images, hg, hlen]

/-- Witness for C3 at a concrete input. -/
theorem C3_witness :
    handleGenerate "u" ["f"] (some { userId := "u", email := "e", credits := 50 })
        (["D"].map (fun d => InferResult.ok (some d))) =
      { error := ""
        uploadedFiles := []
        creditWrites := [(50 : Int) - 50]
        records := [{ userId := "u",
                      images := ["D"].map (fun d => "data:image/png;base64," ++ d) }]
        inferenceCalls := ["f"].length } :=
  C3_all_success_creates_one_record "u" ["f"] ["D"]
    { userId := "u", email := "e", credits := 50 } (by decide) (by decide) (by decide)

/-- C4: with the debit done and the first throwing inference call (transport
rejection or non-ok status) somewhere in the sequence, the balance is written
back to the cached pre-debit value, no generation record is created even when
earlier calls produced images, the batch is kept, and the message combines the
underlying error text with the refund notice. -/
theorem C4_inference_error_refunds (uid : String) (files : List String)
    (p : ProfileDoc) (pre : List InferResult) (e : InferResult)
    (post : List InferResult) (m : String)
    (hne : files ≠ []) (hge : 50 ≤ p.credits)
    (hpre : ∀ r ∈ pre, errText r = none) (he : errText e = some m)
    (hlen : (pre ++ e :: post).length = files.length) :
    handleGenerate uid files (some p) (pre ++ e :: post) =
      { error := "Generation failed: " ++ m ++ ". Refunding credits."
        uploadedFiles := files
        creditWrites := [p.credits - 50, p.credits]
        records := [], inferenceCalls := pre.length + 1 } := by
  have h0 : ¬ files.length = 0 := by simpa [List.length_eq_zero] using hne
  have hnot : ¬ p.credits < 50 := not_lt.mpr hge
  have htake : (pre ++ e :: post).take files.length = pre ++ e :: post := by
    rw [← hlen, List.take_length]
  have hrc := runCalls_first_error pre e post m hpre he
  simp [handleGenerate, creditsUnder50, h0, hnot, htake, hrc.1, hrc.2, refundValue_some]

/-- Witness for C4 at a concrete input: the first call succeeds with an image,
the second rejects at the transport level. -/
theorem C4_witness :
    handleGenerate "u" ["f1", "f2"] (some { userId := "u", email := "e", credits := 100 })
        ([InferResult.ok (some "D")] ++ InferResult.transportError "Failed to fetch" :: []) =
      { error := "Generation failed: " ++ "Failed to fetch" ++ ". Refunding credits."
        uploadedFiles := ["f1", "f2"]
        creditWrites := [(100 : Int) - 50, 100]
        records := [], inferenceCalls := [InferResult.ok (some "D")].length + 1 } :=
  C4_inference_error_refunds "u" ["f1", "f2"]
    { userId := "u", email := "e", credits := 100 }
    [InferResult.ok (some "D")] (InferResult.transportError "Failed to fetch") []
    "Failed to fetch" (by decide) (by decide) (by decide) (by decide) (by decide)

/-- C5: with the debit done and every inference call completing without an
exception but yielding no image payload, the run is a terminal failure: no
generation record, batch kept, and the balance written back to its pre-debit
value, with the dedicated empty-result message. -/
theorem C5_zero_images_refunds (uid : String) (files : List String)
    (p : ProfileDoc) (rs : List InferResult)
    (hne : files ≠ []) (hge : 50 ≤ p.credits)
    (hall : ∀ r ∈ rs, r = InferResult.ok none) (hlen : rs.length = files.length) :
    handleGenerate uid files (some p) rs =
      { error := "Generation failed: The AI failed to generate images. Your credits have been refunded.. Refunding credits."
        uploadedFiles := files
        creditWrites := [p.credits - 50, p.credits]
        records := [], inferenceCalls := files.length } := by
  have h0 : ¬ files.length = 0 := by simpa [List.length_eq_zero] using hne
  have hnot : ¬ p.credits < 50 := not_lt.mpr hge
  have htake : rs.take files.length = rs := by rw [← hlen, List.take_length]
  simp [handleGenerate, creditsUnder50, h0, hnot, htake, runCalls_all_empty rs hall,
    hlen, refundValue_some]

/-- Witness for C5 at a concrete input. -/
theorem C5_witness :
    handleGenerate "u" ["f"] (some { userId := "u", email := "e", credits := 50 })
        [InferResult.ok none] =
      { error := "Generation failed: The AI failed to generate images. Your credits have been refunded.. Refunding credits."
        uploadedFiles := ["f"]
        creditWrites := [(50 : Int) - 50, 50]
        records := [], inferenceCalls := ["f"].length } :=
  C5_zero_images_refunds "u" ["f"] { userId := "u", email := "e", credits := 50 }
    [InferResult.ok none] (by decide) (by decide) (by decide) (by decide)

/-- C6 counterexample: on a single delivered record `["a", "b"]` the code's
gallery is `["b", "a"]` — the whole flattened list is reversed, so the images
of one record appear in reverse order — while the claim's
newest-record-first flatten keeps the record's own order `["a", "b"]`. -/
theorem C6_counterexample :
    galleryView [["a", "b"]] ≠ galleryViewSpec [["a", "b"]] := by decide

/-- C6 amended: the gallery equals the flatten of all delivered records,
reversed element-wise, deduplicated keeping each value's earliest delivered
occurrence (`List.dedup` keeps last occurrences, i.e. the earliest in delivery
order after the reversal); it therefore holds no duplicates and contains
exactly the image references occurring in some record. -/
theorem C6_amended_gallery (records : List (List String)) :
    galleryView records = records.flatten.reverse.dedup ∧
      (galleryView records).Nodup ∧
      (∀ x, x ∈ galleryView records ↔ ∃ r ∈ records, x ∈ r) := by
  have h : galleryView records = records.flatten.reverse.dedup :=
    dedupFirst_reverse records.flatten
  refine ⟨h, ?_, fun x => ?_⟩
  · rw [h]; exact List.nodup_dedup _
  · rw [h]
    simp [List.mem_dedup, List.mem_reverse, List.mem_flatten]

/-- C7: the profile snapshot callback creates `{userId, email, credits: 0}`
exactly when no document exists, and merely stores an existing document
locally without any creation write. -/
theorem C7_profile_lazy_creation (uid email : String) :
    onProfileSnapshot uid email none
        = SnapAction.createDoc { userId := uid, email := email, credits := 0 } ∧
      ∀ p, onProfileSnapshot uid email (some p) = SnapAction.setLocal p :=
  ⟨rfl, fun _ => rfl⟩

/-- C8: a selection of more than 5 files only sets the too-many-images error
and leaves the stored batch untouched; a selection of 1 to 5 files replaces
the batch and clears the error; and the batch never grows beyond 5 files. -/
theorem C8_upload_batch_limit (files : List String) (s : UploadState) :
    (5 < files.length → handleFileChange files s
        = { s with error := "You can upload a maximum of 5 images." }) ∧
      (1 ≤ files.length → files.length ≤ 5 → handleFileChange files s
        = { uploadedFiles := files, error := "" }) ∧
      (s.uploadedFiles.length ≤ 5 → (handleFileChange files s).uploadedFiles.length ≤ 5) := by
  refine ⟨fun h => by simp [handleFileChange, h],
    fun h1 h5 => by simp [handleFileChange, Nat.not_lt.mpr h5],
    fun hs => ?_⟩
  by_cases h : files.length > 5
  · simpa [handleFileChange, h] using hs
  · simp [handleFileChange, h]
    omega

/-- Witness for C8 at concrete inputs: a 6-file selection is rejected without
touching the batch, a 1-file selection replaces it and clears the error, and
the stored batch stays within the limit. -/
theorem C8_witness :
    handleFileChange ["1", "2", "3", "4", "5", "6"] { uploadedFiles := ["x"], error := "" }
        = { uploadedFiles := ["x"], error := "You can upload a maximum of 5 images." } ∧
      handleFileChange ["a"] { uploadedFiles := ["x"], error := "old" }
        = { uploadedFiles := ["a"], error := "" } ∧
      (handleFileChange ["a"] { uploadedFiles := ["x"], error := "old" }).uploadedFiles.length ≤ 5 :=
  ⟨(C8_upload_batch_limit ["1", "2", "3", "4", "5", "6"]
      { uploadedFiles := ["x"], error := "" }).1 (by decide),
   (C8_upload_batch_limit ["a"] { uploadedFiles := ["x"], error := "old" }).2.1
      (by decide) (by decide),
   (C8_upload_batch_limit ["a"] { uploadedFiles := ["x"], error := "old" }).2.2 (by decide)⟩

/-- C9 counterexample: in the popup flow, the explicit user-cancelled error
(code `auth/popup-closed-by-user`) is NOT suppressed — the catch handler sets
a visible message for every error, contradicting the claim that the
user-cancelled case is silent in both flows. -/
theorem C9_counterexample :
    popupCatchSetsError "auth/popup-closed-by-user"
      "Firebase: Error (auth/popup-closed-by-user)." ≠ none := by
  simp [popupCatchSetsError]

/-- C9 amended: only the redirect flow suppresses its explicit cancelled case
(code `auth/redirect-cancelled-by-user`) silently and surfaces every other
error; the popup flow surfaces every error with a fixed visible message,
including user cancellation. -/
theorem C9_amended_auth_errors (code msg : String) :
    (code ≠ redirectCancelledCode → redirectCatchSetsError code msg
        = some ("Failed to complete sign-in: " ++ msg ++ ". Please try again.")) ∧
      redirectCatchSetsError redirectCancelledCode msg = none ∧
      popupCatchSetsError code msg
        = some "Could not complete sign-in. Please check browser settings for pop-ups." :=
  ⟨fun h => by simp [redirectCatchSetsError, h],
   by simp [redirectCatchSetsError],
   rfl⟩

/-- Witness for C9 at a concrete input: a non-cancelled redirect error is
surfaced with the combined message. -/
theorem C9_witness :
    redirectCatchSetsError "auth/network-request-failed" "Network error"
        = some ("Failed to complete sign-in: " ++ "Network error" ++ ". Please try again.") :=
  (C9_amended_auth_errors "auth/network-request-failed" "Network error").1 (by decide)

/-- C10: invoking `handleGenerate` with a non-empty batch while no profile is
loaded passes the insufficient-credits check (the JS comparison with an absent
balance is false), fails at the debit step before any debit write, and the
catch path's only credit write is 0 — `profile?.credits || 0` on a null
profile — rather than leaving the balance unchanged. -/
theorem C10_null_profile_refund_zero (uid : String) (files : List String)
    (responses : List InferResult) (hne : files ≠ []) :
    handleGenerate uid files none responses =
      { error := "Generation failed: " ++ nullCreditsMsg ++ ". Refunding credits."
        uploadedFiles := files
        creditWrites := [0], records := [], inferenceCalls := 0 } := by
  have h0 : ¬ files.length = 0 := by simpa [List.length_eq_zero] using hne
  simp [handleGenerate, creditsUnder50, refundValue, h0]

/-- Witness for C10 at a concrete input. -/
theorem C10_witness :
    handleGenerate "u" ["f"] none [] =
      { error := "Generation failed: " ++ nullCreditsMsg ++ ". Refunding credits."
        uploadedFiles := ["f"]
        creditWrites := [0], records := [], inferenceCalls := 0 } :=
  C10_null_profile_refund_zero "u" ["f"] [] (by decide)
